import Mathlib

/-!
Shallow embedding of the replay engine of `src/viewer/app.ts`
(VTOLLiveViewerClient): packet store, playback scheduler, undo registry,
dispatcher and entity registry, together with theorems settling the
spec claims about them.

Times and speed multipliers are modelled as rationals (the JS speed table
contains `0.5`, and virtual time advances by `dt * speed`).  Entity ids and
RPC numeric arguments are integers.  JS `undefined` timestamps are
`Option.none`; the `packet.timestamp ?? Date.now()` fallback takes the
current wall-clock value as an explicit `now` parameter.
-/

namespace VTOLReplay

/-- `const REPLAY_SPEEDS = [-8, -4, -2, -1, -0.5, 0, 0.5, 1, 2, 4, 8, 16, 32]` -/
def REPLAY_SPEEDS : List ℚ := [-8, -4, -2, -1, -(1/2), 0, 1/2, 1, 2, 4, 8, 16, 32]

/-- `get computedReplaySpeed() { return REPLAY_SPEEDS[this.replaySpeed]; }`
(the index is always kept in bounds by `handleKeyDown`, so the
out-of-bounds default is never reached in the claims). -/
def computedReplaySpeed (replaySpeed : Nat) : ℚ :=
  REPLAY_SPEEDS.getD replaySpeed 0

/-- A 3-component vector argument (`Vector3`). -/
structure Vec3 where
  x : ℚ
  y : ℚ
  z : ℚ
deriving DecidableEq

/-- One serialisable RPC argument value. -/
inductive RValue where
  | num (n : Int)
  | str (s : String)
  | v3 (v : Vec3)
  | b (v : Bool)
deriving DecidableEq

/-- `RPCPacket`: `{ className, method, args, timestamp? }`.  The timestamp is
optional at decode time (`undefined` in JS is `none`). -/
structure RPCPacket where
  className : String
  method : String
  args : List RValue
  timestamp : Option ℚ
deriving DecidableEq

/-- A live entity as tracked by `Application.entities`: the fields the
registry receives from `NetInstantiate` via `handleEntitySpawn`. -/
structure Entity where
  id : Int
  ownerId : String
  path : String
  position : Vec3
  rotation : Vec3
  isActive : Bool
deriving DecidableEq

/-- One element of `Application.spawnables`: an entity class together with
its `spawnFor` matcher (exact string set or pattern), applied to the
spawn path. -/
structure SpawnRule where
  className : String
  accepts : String → Bool

/-- `c == d` on characters of the spawn paths. -/
def charsEqPre : List Char → List Char → Bool
  | [], _ => true
  | _ :: _, [] => false
  | c :: cs, d :: ds => c == d && charsEqPre cs ds

/-- `path.startsWith(p)` (JS `String.prototype.startsWith`). -/
def strStartsWith (s p : String) : Bool :=
  charsEqPre p.data s.data

/-- Helper for `path.includes(p)` over the character list. -/
def charsContains (p : List Char) : List Char → Bool
  | [] => charsEqPre p []
  | c :: t => charsEqPre p (c :: t) || charsContains p t

/-- `path.includes(p)` (JS `String.prototype.includes`). -/
def strContains (s p : String) : Bool :=
  charsContains p.data s.data

/-- JS `String.prototype.toLowerCase` restricted to ASCII (spawn paths are
ASCII). -/
def lowerChar (c : Char) : Char :=
  if 'A' ≤ c ∧ c ≤ 'Z' then Char.ofNat (c.toNat + 32) else c

/-- Lower-case a spawn path. -/
def strLower (s : String) : String :=
  ⟨s.data.map lowerChar⟩

/-- A whitespace character as removed by JS `String.prototype.trim`
(spawn paths only ever carry these). -/
def isSpaceChar (c : Char) : Bool :=
  c == ' ' || c == '\t' || c == '\n' || c == '\r'

/-- `path.trim()`: strip leading and trailing whitespace. -/
def strTrim (s : String) : String :=
  ⟨((s.data.dropWhile isSpaceChar).reverse.dropWhile isSpaceChar).reverse⟩

/-- `eClass.spawnFor.map(c => c.toLowerCase()).includes(path.trim().toLowerCase())`:
the matcher of a spawnable whose `spawnFor` is an array of strings. -/
def listMatcher (spawnFor : List String) (path : String) : Bool :=
  (spawnFor.map strLower).contains (strLower (strTrim path))

/-- `AIAirVehicle.spawnFor` (from `src/viewer/entities/aiAirVehicle.ts`). -/
def aiAirVehicleSpawnFor : List String :=
  ["Units/Allied/ABomberAI", "Units/Enemy/AIUCAV", "Units/Enemy/ASF-30",
   "Units/Enemy/ASF-33", "Units/Enemy/ASF-58", "Units/Allied/AV-42CAI",
   "Units/Allied/E-4", "Units/Enemy/AEW-50", "Units/Enemy/EBomberAI",
   "Units/Allied/F-45A AI", "Units/Allied/FA-26A", "Units/Allied/FA-26B AI",
   "Units/Enemy/GAV-25", "Units/Allied/KC-49", "Units/Allied/MQ-31",
   "Units/Enemy/T-55 AI-E", "Units/Allied/T-55 AI"]

/-- The `AIAirVehicle` spawn rule. -/
def aiAirVehicleRule : SpawnRule :=
  ⟨"AIAirVehicle", listMatcher aiAirVehicleSpawnFor⟩

/-- The resolution loop of `handleEntitySpawn`: try the spawnables in
order, first match wins (`break` on match). -/
def resolveSpawnClass (spawnables : List SpawnRule) (path : String) :
    Option SpawnRule :=
  spawnables.find? (fun r => r.accepts path)

/-- Result of a spawn request: the updated live list and whether the
unresolved-spawn warning (`console.warn`) fired. -/
structure SpawnResult where
  entities : List Entity
  warned : Bool
deriving DecidableEq

/-- `Application.handleEntitySpawn` followed by `addEntity`:
resolve the class; on no match, warn unless the path starts with
`"HPEquips"` or includes `"Rearm"`, and leave the list unchanged; on a
match, construct the entity and append it (no duplicate-id check). -/
def handleEntitySpawn (spawnables : List SpawnRule) (entities : List Entity)
    (id : Int) (ownerId : String) (path : String)
    (position rotation : Vec3) (isActive : Bool) : SpawnResult :=
  match resolveSpawnClass spawnables path with
  | none =>
    ⟨entities, !(strStartsWith path "HPEquips") && !(strContains path "Rearm")⟩
  | some _ =>
    ⟨entities ++ [⟨id, ownerId, path, position, rotation, isActive⟩], false⟩

/-- `MessageHandler.NetDestroy`: remove (and tear down) the first live
entity whose id equals the argument; no match leaves the list unchanged. -/
def netDestroy (id : Int) : List Entity → List Entity
  | [] => []
  | e :: es => if e.id = id then es else e :: netDestroy id es

/-- `handleKeyDown` on ArrowLeft: `replaySpeed = Math.max(replaySpeed - 1, 0)`. -/
def speedDec (i : Int) : Int := max (i - 1) 0

/-- `handleKeyDown` on ArrowRight:
`replaySpeed = Math.min(replaySpeed + 1, REPLAY_SPEEDS.length - 1)`. -/
def speedInc (i : Int) : Int := min (i + 1) ((REPLAY_SPEEDS.length : Int) - 1)

/-- A speed control command (one ArrowLeft / ArrowRight key press). -/
inductive SpeedCmd where
  | dec
  | inc
deriving DecidableEq

/-- Apply one speed command. -/
def applySpeedCmd (i : Int) : SpeedCmd → Int
  | .dec => speedDec i
  | .inc => speedInc i

/-- Apply a sequence of speed commands. -/
def applySpeedCmds (i : Int) (cmds : List SpeedCmd) : Int :=
  cmds.foldl applySpeedCmd i

/-- The replay-relevant mutable state of `Application`.
`groupedReplayPackets` is the sparse per-second packet store (JS array
indexed by `Math.floor(timestamp / 1000)`; a missing index reads as the
empty bucket via `?? []`).  `consoleErrors` counts `console.error` calls
(used by the reverse-undo consistency error). -/
structure AppState where
  entities : List Entity
  replayPackets : List RPCPacket
  groupedReplayPackets : Int → List RPCPacket
  replayStartTime : ℚ
  replayCurrentTime : ℚ
  prevReplayTime : ℚ
  replaySpeed : Nat
  spawnables : List SpawnRule
  consoleErrors : Nat

/-- `Application.packetIsInTimeframe`.  JS returns `undefined` (falsy) when
the speed is zero; the caller only tests truthiness, so the model returns
`false` there. -/
def packetIsInTimeframe (a : AppState) (now : ℚ) (p : RPCPacket) : Bool :=
  let fromRecordingStart := p.timestamp.getD now - a.replayStartTime
  if computedReplaySpeed a.replaySpeed > 0 then
    decide (fromRecordingStart ≤ a.replayCurrentTime ∧
            fromRecordingStart > a.prevReplayTime)
  else if computedReplaySpeed a.replaySpeed < 0 then
    decide (fromRecordingStart ≥ a.replayCurrentTime ∧
            fromRecordingStart < a.prevReplayTime)
  else false

/-- The bucket-insertion loop of `handleReplayChunk`:
`grouped[Math.floor((rpc.timestamp ?? Date.now()) / 1000)].push(rpc)`,
creating the bucket when absent. -/
def insertGrouped (now : ℚ) (store : Int → List RPCPacket) (rpc : RPCPacket) :
    Int → List RPCPacket :=
  let sec := ⌊(rpc.timestamp.getD now) / 1000⌋
  fun s => if s = sec then store s ++ [rpc] else store s

/-- Ingest a batch of packets into the per-second store, in order. -/
def groupPackets (now : ℚ) (store : Int → List RPCPacket)
    (rpcs : List RPCPacket) : Int → List RPCPacket :=
  rpcs.foldl (insertGrouped now) store

/-- `groupedReplayPackets[Math.floor(t / 1000)] ?? []`. -/
def bucketLookup (store : Int → List RPCPacket) (t : ℚ) : List RPCPacket :=
  store ⌊t / 1000⌋

/-- The timestamp-interpolation loop of `handleReplayChunk`:
`rpc.timestamp = chunkIndex * msPerChunk + tsStep * idx`, written as direct
recursion on the batch with the running index made explicit. -/
def stampFrom (base tsStep : ℚ) (idx : Nat) : List RPCPacket → List RPCPacket
  | [] => []
  | p :: ps =>
    { p with timestamp := some (base + tsStep * idx) } :: stampFrom base tsStep (idx + 1) ps

/-- The timestamp-resolution step of `handleReplayChunk`: when the first
packet of the decoded batch has no timestamp, the whole batch gets
synthetic timestamps with `msPerChunk = 30 * 1000` and
`tsStep = msPerChunk / rpcs.length`, offset by
`currentReplayChunkReceive * msPerChunk` (the 0-based chunk index; the
counter is incremented only after this function runs).  A batch whose
first packet is timestamped is left untouched.  (The JS code throws on an
empty batch when reading `rpcs[0]`; the model returns it unchanged, and
every claim concerns non-empty batches.) -/
def assignChunkTimestamps (chunkIndex : Nat) (rpcs : List RPCPacket) :
    List RPCPacket :=
  match rpcs.head? with
  | none => rpcs
  | some p0 =>
    if p0.timestamp = none then
      let msPerChunk : ℚ := 30 * 1000
      let tsStep : ℚ := msPerChunk / (rpcs.length : ℚ)
      stampFrom ((chunkIndex : ℚ) * msPerChunk) tsStep 0 rpcs
    else rpcs

/-- `RPCController.handlePacket` restricted to the `MessageHandler` RPCs
that mutate the entity registry: `NetInstantiate` runs `handleEntitySpawn`,
`NetDestroy` removes the first id match.  Other methods (e.g.
`SetEntityUnitID`) do not change the live set's composition. -/
def dispatchPacket (a : AppState) (p : RPCPacket) : AppState :=
  if p.className = "MessageHandler" ∧ p.method = "NetInstantiate" then
    match p.args with
    | .num id :: .str ownerId :: .str path :: .v3 pos :: .v3 rot :: .b active :: _ =>
      { a with entities :=
          (handleEntitySpawn a.spawnables a.entities id ownerId path pos rot active).entities }
    | _ => a
  else if p.className = "MessageHandler" ∧ p.method = "NetDestroy" then
    match p.args with
    | .num id :: _ => { a with entities := netDestroy id a.entities }
    | _ => a
  else a

/-- The predicate of the `replayPackets.find` call in the `NetDestroy`
undo handler:
`p.className == "MessageHandler" && p.method == "NetInstantiate" && p.args[0] == id`. -/
def isSpawnPacketFor (id? : Option RValue) (p : RPCPacket) : Bool :=
  decide (p.className = "MessageHandler" ∧ p.method = "NetInstantiate" ∧
          p.args.head? = id?)

/-- The `replaceRPCHandlers` table applied to one reverse-motion packet.
Returns the state (the `NetInstantiate` undo destroys the entity directly;
the `NetDestroy` undo logs a consistency error when no spawn packet
exists) and `none` to suppress, or `some q` to dispatch `q` in place of
the packet.  A packet with no handler entry passes through unchanged. -/
def applyReplaceHandler (a : AppState) (packet : RPCPacket) :
    AppState × Option RPCPacket :=
  if packet.className = "MessageHandler" ∧ packet.method = "NetInstantiate" then
    match packet.args.head? with
    | some (.num id) => ({ a with entities := netDestroy id a.entities }, none)
    | _ => (a, none)
  else if packet.className = "MessageHandler" ∧ packet.method = "NetDestroy" then
    match a.replayPackets.find? (isSpawnPacketFor packet.args.head?) with
    | some spawnPacket => (a, some spawnPacket)
    | none => ({ a with consoleErrors := a.consoleErrors + 1 }, none)
  else (a, some packet)

/-- `if (expectedDt > 1000) expectedDt = 1000 / 60`. -/
def clampDt (dt : ℚ) : ℚ := if dt > 1000 then 1000 / 60 else dt

/-- `this.replayCurrentTime += expectedDt * this.computedReplaySpeed`
(performed before the candidate scan of the same tick). -/
def newReplayTime (a : AppState) (dt : ℚ) : ℚ :=
  a.replayCurrentTime + clampDt dt * computedReplaySpeed a.replaySpeed

/-- `[...currentPacketGroup, ...prevPacketGroup]`: the candidate packets of
one tick, drawn from the bucket of the advanced clock and the bucket of
the previous tick's clock. -/
def tickCandidates (a : AppState) (dt : ℚ) : List RPCPacket :=
  bucketLookup a.groupedReplayPackets (newReplayTime a dt) ++
  bucketLookup a.groupedReplayPackets a.prevReplayTime

/-- One step of the candidate loop of `runReplay`: drop the packet when
out of timeframe; in reverse motion, route it through
`replaceRPCHandlers`; otherwise append it to the pending dispatch list. -/
def tickStep (now : ℚ) :
    AppState × List RPCPacket → RPCPacket → AppState × List RPCPacket
  | (a, acc), packet =>
    if !(packetIsInTimeframe a now packet) then (a, acc)
    else if computedReplaySpeed a.replaySpeed < 0 then
      match applyReplaceHandler a packet with
      | (a2, none) => (a2, acc)
      | (a2, some q) => (a2, acc ++ [q])
    else (a, acc ++ [packet])

/-- The candidates of a tick that survive the `packetIsInTimeframe`
filter, i.e. the packets selected for dispatch (directly in forward
motion, through the undo registry in reverse motion). -/
def selectedPackets (a : AppState) (now dt : ℚ) : List RPCPacket :=
  (tickCandidates a dt).filter
    (packetIsInTimeframe { a with replayCurrentTime := newReplayTime a dt } now)

/-- `Application.runReplay`: clamp `dt`, advance the virtual clock, gather
and filter candidates (applying the undo registry in reverse motion, whose
side effects run during the scan), dispatch the surviving packets, then
record `prevReplayTime := replayCurrentTime`.  Returns the final state and
the dispatched packet list. -/
def runReplayTick (a : AppState) (now dt : ℚ) : AppState × List RPCPacket :=
  let a1 := { a with replayCurrentTime := newReplayTime a dt }
  let scanned := (tickCandidates a dt).foldl (tickStep now) (a1, [])
  let a3 := scanned.2.foldl dispatchPacket scanned.1
  ({ a3 with prevReplayTime := a3.replayCurrentTime }, scanned.2)

/-- The entity-clearing step of `Application.subscribe` (session switch):
`this.entities.forEach(entity => entity.remove()); this.entities = [];`. -/
def subscribeClearEntities (a : AppState) : AppState :=
  { a with entities := [] }

/-- Modelled from the spec: the `NetDestroy` undo as the spec words it —
"search the packet store backward in time for the instantiate-entity
packet carrying the same entity id", i.e. scan the time-ordered packet
list from its end towards its beginning and return the first (= latest)
matching instantiate packet.  Kept for comparison with the source's
`replayPackets.find(...)`, which scans from the beginning. -/
def undoDestroySearchSpec (packets : List RPCPacket) (id? : Option RValue) :
    Option RPCPacket :=
  packets.reverse.find? (isSpawnPacketFor id?)

/-! ### Concrete sample data used by witnesses and counterexamples -/

/-- A `NetInstantiate` packet for entity 7 (path matched by
`AIAirVehicle.spawnFor`), timestamped 1000 ms into the recording. -/
def instPacket7 : RPCPacket :=
  { className := "MessageHandler", method := "NetInstantiate",
    args := [.num 7, .str "owner", .str "Units/Allied/E-4",
             .v3 ⟨0, 0, 0⟩, .v3 ⟨0, 0, 0⟩, .b true],
    timestamp := some 1000 }

/-- A second `NetInstantiate` packet for entity 7 (a respawn with a
different path), timestamped 5000. -/
def instPacket7B : RPCPacket :=
  { className := "MessageHandler", method := "NetInstantiate",
    args := [.num 7, .str "owner", .str "Units/Allied/KC-49",
             .v3 ⟨0, 0, 0⟩, .v3 ⟨0, 0, 0⟩, .b true],
    timestamp := some 5000 }

/-- A `NetDestroy` packet for entity 7, timestamped 1500. -/
def destPacket7 : RPCPacket :=
  { className := "MessageHandler", method := "NetDestroy",
    args := [.num 7], timestamp := some 1500 }

/-- The entity that `handleEntitySpawn` constructs from `instPacket7`. -/
def entity7 : Entity :=
  ⟨7, "owner", "Units/Allied/E-4", ⟨0, 0, 0⟩, ⟨0, 0, 0⟩, true⟩

/-- A per-second store holding `instPacket7` and `destPacket7` in their
one shared bucket (second 1). -/
def sampleStoreBoth : Int → List RPCPacket :=
  fun s => if s = 1 then [instPacket7, destPacket7] else []

/-- A per-second store holding only `instPacket7` (second 1). -/
def sampleStoreInst : Int → List RPCPacket :=
  fun s => if s = 1 then [instPacket7] else []

/-- Replay state at virtual time 500 about to move forward at 2x
(`replaySpeed = 8`), with `instPacket7` and `destPacket7` in the store,
and a given initial live set. -/
def sampleState (store : Int → List RPCPacket) (packets : List RPCPacket)
    (es : List Entity) : AppState :=
  { entities := es, replayPackets := packets,
    groupedReplayPackets := store,
    replayStartTime := 0, replayCurrentTime := 500, prevReplayTime := 500,
    replaySpeed := 8, spawnables := [aiAirVehicleRule], consoleErrors := 0 }

/-- The initial state of the forward-then-reverse scenario: empty live
set, both lifecycle packets of entity 7 in the store and packet list. -/
def cexStart : AppState :=
  sampleState sampleStoreBoth [instPacket7, destPacket7] []

/-- A decoded packet carrying no timestamp (as in a replay chunk whose
recording omitted per-packet timing). -/
def untimedPacket : RPCPacket :=
  { className := "MessageHandler", method := "SetEntityUnitID",
    args := [.num 7, .num 3], timestamp := none }

/-! ### Helper lemmas -/

theorem netDestroy_of_forall_ne (id : Int) :
    ∀ es : List Entity, (∀ e ∈ es, e.id ≠ id) → netDestroy id es = es := by
  intro es h
  induction es with
  | nil => rfl
  | cons e es ih =>
    have he : e.id ≠ id := h e (List.mem_cons_self e es)
    simp only [netDestroy, if_neg he]
    rw [ih fun x hx => h x (List.mem_cons_of_mem e hx)]

theorem netDestroy_append_split (id : Int) (e : Entity) (post : List Entity) :
    ∀ pre : List Entity, (∀ x ∈ pre, x.id ≠ id) → e.id = id →
      netDestroy id (pre ++ e :: post) = pre ++ post := by
  intro pre
  induction pre with
  | nil =>
    intro _ he
    simp only [List.nil_append, netDestroy, if_pos he]
  | cons x pre ih =>
    intro h he
    have hx : x.id ≠ id := h x (List.mem_cons_self x pre)
    simp only [List.cons_append, netDestroy, if_neg hx]
    exact congrArg (List.cons x) (ih (fun y hy => h y (List.mem_cons_of_mem x hy)) he)

theorem netDestroy_sublist (id : Int) :
    ∀ es : List Entity, (netDestroy id es).Sublist es := by
  intro es
  induction es with
  | nil => simp [netDestroy]
  | cons e es ih =>
    by_cases he : e.id = id
    · simp only [netDestroy, if_pos he]
      exact List.sublist_cons_self e es
    · simp only [netDestroy, if_neg he]
      exact ih.cons₂ e

theorem find?_append_split {α : Type} (pred : α → Bool) (sp : α) (post : List α) :
    ∀ pre : List α, (∀ q ∈ pre, pred q = false) → pred sp = true →
      (pre ++ sp :: post).find? pred = some sp := by
  intro pre
  induction pre with
  | nil =>
    intro _ hsp
    simp [List.find?, hsp]
  | cons x pre ih =>
    intro h hsp
    have hx : pred x = false := h x (List.mem_cons_self x pre)
    simp only [List.cons_append, List.find?, hx]
    exact ih (fun y hy => h y (List.mem_cons_of_mem x hy)) hsp

theorem groupPackets_apply (now : ℚ) :
    ∀ (rpcs : List RPCPacket) (store : Int → List RPCPacket) (s : Int),
      groupPackets now store rpcs s =
        store s ++ rpcs.filter
          (fun q => decide (⌊(q.timestamp.getD now) / 1000⌋ = s)) := by
  intro rpcs
  induction rpcs with
  | nil => intro store s; simp [groupPackets]
  | cons q rpcs ih =>
    intro store s
    simp only [groupPackets, List.foldl_cons, List.filter_cons]
    rw [show List.foldl (insertGrouped now) (insertGrouped now store q) rpcs =
          groupPackets now (insertGrouped now store q) rpcs from rfl, ih]
    by_cases hq : ⌊(q.timestamp.getD now) / 1000⌋ = s
    · simp [insertGrouped, hq]
    · have hq2 : ¬s = ⌊(q.timestamp.getD now) / 1000⌋ := fun hh => hq hh.symm
      simp [insertGrouped, hq, hq2]

theorem stampFrom_getElem? (base tsStep : ℚ) :
    ∀ (l : List RPCPacket) (j i : Nat),
      (stampFrom base tsStep j l)[i]? =
        (l[i]?).map
          (fun p => { p with timestamp := some (base + tsStep * ((j : ℚ) + (i : ℚ))) }) := by
  intro l
  induction l with
  | nil => intro j i; simp [stampFrom]
  | cons p ps ih =>
    intro j i
    cases i with
    | zero => simp [stampFrom]
    | succ i =>
      simp only [stampFrom, List.getElem?_cons_succ]
      rw [ih (j + 1) i]
      have harith : base + tsStep * (((j + 1 : Nat) : ℚ) + (i : ℚ)) =
          base + tsStep * ((j : ℚ) + ((i + 1 : Nat) : ℚ)) := by
        push_cast; ring
      simp only [harith]

theorem foldl_tickStep_of_pos (now : ℚ) (a : AppState)
    (h : 0 < computedReplaySpeed a.replaySpeed) :
    ∀ (l : List RPCPacket) (acc : List RPCPacket),
      l.foldl (tickStep now) (a, acc) =
        (a, acc ++ l.filter (packetIsInTimeframe a now)) := by
  intro l
  induction l with
  | nil => intro acc; simp
  | cons p l ih =>
    intro acc
    simp only [List.foldl_cons, List.filter_cons]
    by_cases hp : packetIsInTimeframe a now p = true
    · have hstep : tickStep now (a, acc) p = (a, acc ++ [p]) := by
        simp [tickStep, hp, not_lt.mpr (le_of_lt h)]
      rw [hstep, ih, hp]
      simp
    · have hp' : packetIsInTimeframe a now p = false := by
        simpa using hp
      have hstep : tickStep now (a, acc) p = (a, acc) := by
        simp [tickStep, hp']
      rw [hstep, ih, hp']
      simp

theorem packetIsInTimeframe_of_zero (now : ℚ) (a : AppState)
    (h : computedReplaySpeed a.replaySpeed = 0) (p : RPCPacket) :
    packetIsInTimeframe a now p = false := by
  simp [packetIsInTimeframe, h]

theorem foldl_tickStep_of_zero (now : ℚ) (a : AppState)
    (h : computedReplaySpeed a.replaySpeed = 0) :
    ∀ (l : List RPCPacket) (acc : List RPCPacket),
      l.foldl (tickStep now) (a, acc) = (a, acc) := by
  intro l
  induction l with
  | nil => intro acc; simp
  | cons p l ih =>
    intro acc
    simp only [List.foldl_cons]
    rw [show tickStep now (a, acc) p = (a, acc) by
      simp [tickStep, packetIsInTimeframe_of_zero now a h p], ih]

theorem applySpeedCmd_bounds (i : Int) (c : SpeedCmd)
    (h0 : 0 ≤ i) (h1 : i ≤ (REPLAY_SPEEDS.length : Int) - 1) :
    0 ≤ applySpeedCmd i c ∧
    applySpeedCmd i c ≤ (REPLAY_SPEEDS.length : Int) - 1 := by
  have hlen : REPLAY_SPEEDS.length = 13 := by decide
  rw [hlen] at h1 ⊢
  cases c <;> simp only [applySpeedCmd, speedDec, speedInc, hlen] <;>
    constructor <;> omega

theorem applySpeedCmds_bounds (cmds : List SpeedCmd) :
    ∀ i : Int, 0 ≤ i → i ≤ (REPLAY_SPEEDS.length : Int) - 1 →
      0 ≤ applySpeedCmds i cmds ∧
      applySpeedCmds i cmds ≤ (REPLAY_SPEEDS.length : Int) - 1 := by
  induction cmds with
  | nil => intro i h0 h1; exact ⟨h0, h1⟩
  | cons c cmds ih =>
    intro i h0 h1
    have hb := applySpeedCmd_bounds i c h0 h1
    simpa only [applySpeedCmds, List.foldl_cons] using ih (applySpeedCmd i c) hb.1 hb.2

theorem packetIsInTimeframe_pos_iff (a : AppState) (now : ℚ) (p : RPCPacket)
    (t : ℚ) (ht : p.timestamp = some t)
    (h : computedReplaySpeed a.replaySpeed > 0) :
    (packetIsInTimeframe a now p = true ↔
      a.prevReplayTime < t - a.replayStartTime ∧
      t - a.replayStartTime ≤ a.replayCurrentTime) := by
  simp only [packetIsInTimeframe, ht, Option.getD_some, if_pos h,
    decide_eq_true_eq, gt_iff_lt]
  exact and_comm

theorem packetIsInTimeframe_neg_iff (a : AppState) (now : ℚ) (p : RPCPacket)
    (t : ℚ) (ht : p.timestamp = some t)
    (h : computedReplaySpeed a.replaySpeed < 0) :
    (packetIsInTimeframe a now p = true ↔
      a.replayCurrentTime ≤ t - a.replayStartTime ∧
      t - a.replayStartTime < a.prevReplayTime) := by
  have hnp : ¬computedReplaySpeed a.replaySpeed > 0 := by
    exact not_lt.mpr (le_of_lt h)
  simp only [packetIsInTimeframe, ht, Option.getD_some, if_neg hnp, if_pos h,
    decide_eq_true_eq, ge_iff_le]

/-! ### Claim theorems -/

/-- C8: for every sequence of speed increment and decrement commands, of
any length, the speed index remains within `[0, REPLAY_SPEEDS.length - 1]`;
a decrement at index 0 leaves it at 0 and an increment at the last index
leaves it at the last index. -/
theorem c8_speed_index_always_clamped (cmds : List SpeedCmd) (i : Int)
    (h0 : 0 ≤ i) (h1 : i ≤ (REPLAY_SPEEDS.length : Int) - 1) :
    (0 ≤ applySpeedCmds i cmds ∧
      applySpeedCmds i cmds ≤ (REPLAY_SPEEDS.length : Int) - 1) ∧
    applySpeedCmd 0 .dec = 0 ∧
    applySpeedCmd ((REPLAY_SPEEDS.length : Int) - 1) .inc =
      (REPLAY_SPEEDS.length : Int) - 1 := by
  refine ⟨applySpeedCmds_bounds cmds i h0 h1, by decide, by decide⟩

/-- C8 witness: a concrete command sequence that hits both clamps. -/
theorem c8_speed_index_always_clamped_witness :
    (0 ≤ applySpeedCmds 0 [.dec, .dec, .inc] ∧
      applySpeedCmds 0 [.dec, .dec, .inc] ≤ (REPLAY_SPEEDS.length : Int) - 1) ∧
    applySpeedCmd 0 .dec = 0 ∧
    applySpeedCmd ((REPLAY_SPEEDS.length : Int) - 1) .inc =
      (REPLAY_SPEEDS.length : Int) - 1 :=
  c8_speed_index_always_clamped [.dec, .dec, .inc] 0 (by decide) (by decide)

/-- C10: `NetDestroy` with an id matching no live entity leaves the list
unchanged (and raises no error — the loop simply falls through); with a
match, exactly the first matching entity is removed and the rest of the
list is unchanged. -/
theorem c10_netdestroy_first_match (id : Int) (es : List Entity) :
    ((∀ e ∈ es, e.id ≠ id) → netDestroy id es = es) ∧
    (∀ pre e post, es = pre ++ e :: post → (∀ x ∈ pre, x.id ≠ id) →
      e.id = id → netDestroy id es = pre ++ post) := by
  refine ⟨netDestroy_of_forall_ne id es, ?_⟩
  intro pre e post hsplit hpre he
  rw [hsplit]
  exact netDestroy_append_split id e post pre hpre he

/-- C10 witness: no-match and first-match cases on a concrete list. -/
theorem c10_netdestroy_first_match_witness :
    netDestroy 9 [entity7] = [entity7] ∧ netDestroy 7 [entity7] = [] := by
  constructor
  · exact (c10_netdestroy_first_match 9 [entity7]).1 (by decide)
  · exact (c10_netdestroy_first_match 7 [entity7]).2 [] entity7 [] rfl
      (by simp) (by decide)

/-- C9: a spawn request whose path matches no spawn rule creates no entity
and leaves the live set unchanged; the unresolved-spawn warning fires
exactly when the path neither starts with `"HPEquips"` nor contains
`"Rearm"`. -/
theorem c9_unmatched_spawn_path (spawnables : List SpawnRule)
    (es : List Entity) (id : Int) (ownerId path : String) (pos rot : Vec3)
    (act : Bool) (h : ∀ r ∈ spawnables, r.accepts path = false) :
    (handleEntitySpawn spawnables es id ownerId path pos rot act).entities = es ∧
    ((handleEntitySpawn spawnables es id ownerId path pos rot act).warned = true ↔
      ¬(strStartsWith path "HPEquips" = true ∨ strContains path "Rearm" = true)) := by
  have hres : resolveSpawnClass spawnables path = none := by
    rw [resolveSpawnClass, List.find?_eq_none]
    intro r hr
    simp [h r hr]
  rw [handleEntitySpawn, hres]
  refine ⟨rfl, ?_⟩
  cases hsw : strStartsWith path "HPEquips" <;>
    cases hsc : strContains path "Rearm" <;> simp [hsw, hsc]

/-- C9 witness: an unmatched path outside the ignored categories. -/
theorem c9_unmatched_spawn_path_witness :
    (handleEntitySpawn [aiAirVehicleRule] [] 3 "owner" "Rotorcraft/UH-60"
        ⟨0, 0, 0⟩ ⟨0, 0, 0⟩ true).entities = [] ∧
    ((handleEntitySpawn [aiAirVehicleRule] [] 3 "owner" "Rotorcraft/UH-60"
        ⟨0, 0, 0⟩ ⟨0, 0, 0⟩ true).warned = true ↔
      ¬(strStartsWith "Rotorcraft/UH-60" "HPEquips" = true ∨
        strContains "Rotorcraft/UH-60" "Rearm" = true)) :=
  c9_unmatched_spawn_path [aiAirVehicleRule] [] 3 "owner" "Rotorcraft/UH-60"
    ⟨0, 0, 0⟩ ⟨0, 0, 0⟩ true (by decide)

/-- C6 counterexample: a spawn request whose id (7) is already live is
neither rejected nor overwrites the existing entity — it appends a second
live entity with the same id, with no warning, so the live set loses id
uniqueness. -/
theorem c6_counterexample_duplicate_spawn :
    ((handleEntitySpawn [aiAirVehicleRule] [entity7] 7 "owner2"
        "Units/Allied/E-4" ⟨0, 0, 0⟩ ⟨0, 0, 0⟩ true).entities.filter
          (fun e => decide (e.id = 7))).length = 2 ∧
    (handleEntitySpawn [aiAirVehicleRule] [entity7] 7 "owner2"
        "Units/Allied/E-4" ⟨0, 0, 0⟩ ⟨0, 0, 0⟩ true).warned = false ∧
    ¬((handleEntitySpawn [aiAirVehicleRule] [entity7] 7 "owner2"
        "Units/Allied/E-4" ⟨0, 0, 0⟩ ⟨0, 0, 0⟩ true).entities.map
          Entity.id).Nodup := by
  refine ⟨by decide, by decide, by decide⟩

/-- C6 amended: despawn (`NetDestroy`) and session switch (`subscribe`)
preserve id uniqueness of the live set, but a spawn request performs no
duplicate-id check: whenever the path resolves, the entity is appended
unconditionally with no warning, so a spawn whose id is already live
produces two live entities with that id. -/
theorem c6_amended_registry_uniqueness (id : Int) (es : List Entity)
    (a : AppState) (spawnables : List SpawnRule) (r : SpawnRule)
    (ownerId path : String) (pos rot : Vec3) (act : Bool)
    (hres : resolveSpawnClass spawnables path = some r) :
    ((es.map Entity.id).Nodup → ((netDestroy id es).map Entity.id).Nodup) ∧
    ((subscribeClearEntities a).entities.map Entity.id).Nodup ∧
    ((handleEntitySpawn spawnables es id ownerId path pos rot act).entities =
        es ++ [⟨id, ownerId, path, pos, rot, act⟩] ∧
      (handleEntitySpawn spawnables es id ownerId path pos rot act).warned = false) ∧
    ((∃ e ∈ es, e.id = id) →
      ¬((handleEntitySpawn spawnables es id ownerId path pos rot act).entities.map
          Entity.id).Nodup) := by
  have hspawn :
      (handleEntitySpawn spawnables es id ownerId path pos rot act).entities =
        es ++ [⟨id, ownerId, path, pos, rot, act⟩] := by
    rw [handleEntitySpawn, hres]
  refine ⟨?_, ?_, ⟨hspawn, by rw [handleEntitySpawn, hres]⟩, ?_⟩
  · intro hnd
    exact List.Nodup.sublist (List.Sublist.map Entity.id (netDestroy_sublist id es)) hnd
  · simp [subscribeClearEntities]
  · rintro ⟨e, he, heid⟩ hnd
    rw [hspawn, List.map_append] at hnd
    rcases List.nodup_append.mp hnd with ⟨-, -, hdisj⟩
    exact hdisj (List.mem_map.mpr ⟨e, he, heid⟩) (by simp)

/-- C6 witness: the amended theorem instantiated at a concrete duplicate
spawn — appending happens and uniqueness is lost. -/
theorem c6_amended_registry_uniqueness_witness :
    (handleEntitySpawn [aiAirVehicleRule] [entity7] 7 "owner2"
        "Units/Allied/E-4" ⟨0, 0, 0⟩ ⟨0, 0, 0⟩ true).entities =
      [entity7] ++ [⟨7, "owner2", "Units/Allied/E-4", ⟨0, 0, 0⟩, ⟨0, 0, 0⟩, true⟩] ∧
    ¬((handleEntitySpawn [aiAirVehicleRule] [entity7] 7 "owner2"
        "Units/Allied/E-4" ⟨0, 0, 0⟩ ⟨0, 0, 0⟩ true).entities.map
          Entity.id).Nodup := by
  have h := c6_amended_registry_uniqueness 7 [entity7]
    (sampleState (fun _ => []) [] []) [aiAirVehicleRule] aiAirVehicleRule
    "owner2" "Units/Allied/E-4" ⟨0, 0, 0⟩ ⟨0, 0, 0⟩ true rfl
  exact ⟨h.2.2.1.1, h.2.2.2 ⟨entity7, by simp, by decide⟩⟩

/-- C5 counterexample: the undo of a destroy packet does NOT search the
packet store backward in time.  With two instantiate packets for entity 7
(timestamps 1000 and 5000) and a destroy at 1500, the code's
`replayPackets.find(...)` returns the EARLIEST instantiate (timestamp
1000), while a backward-in-time search would return the latest one
(timestamp 5000); the two packets differ. -/
theorem c5_counterexample_forward_search :
    (applyReplaceHandler
        (sampleState sampleStoreBoth [instPacket7, instPacket7B, destPacket7] [])
        destPacket7).2 = some instPacket7 ∧
    undoDestroySearchSpec [instPacket7, instPacket7B, destPacket7]
        (destPacket7.args.head?) = some instPacket7B ∧
    instPacket7 ≠ instPacket7B := by
  refine ⟨by decide, by decide, by decide⟩

/-- C5 amended: undoing a destroy-entity packet scans the flat replay
packet list from its beginning and dispatches the FIRST instantiate
packet carrying the same entity id in place of the destroy packet; when
none exists, a consistency error is logged (`console.error`) and nothing
is dispatched for that packet. -/
theorem c5_amended_undo_destroy (a : AppState) (p : RPCPacket)
    (hc : p.className = "MessageHandler") (hm : p.method = "NetDestroy") :
    (∀ pre sp post, a.replayPackets = pre ++ sp :: post →
      isSpawnPacketFor p.args.head? sp = true →
      (∀ q ∈ pre, isSpawnPacketFor p.args.head? q = false) →
      applyReplaceHandler a p = (a, some sp)) ∧
    (a.replayPackets.find? (isSpawnPacketFor p.args.head?) = none →
      applyReplaceHandler a p =
        ({ a with consoleErrors := a.consoleErrors + 1 }, none)) := by
  have hnotinst : ¬(p.className = "MessageHandler" ∧ p.method = "NetInstantiate") := by
    rintro ⟨-, hmm⟩
    rw [hm] at hmm
    exact absurd hmm (by decide)
  constructor
  · intro pre sp post hsplit hsp hpre
    rw [applyReplaceHandler, if_neg hnotinst, if_pos ⟨hc, hm⟩, hsplit,
      find?_append_split (isSpawnPacketFor p.args.head?) sp post pre hpre hsp]
  · intro hnone
    rw [applyReplaceHandler, if_neg hnotinst, if_pos ⟨hc, hm⟩, hnone]

/-- C5 witness: the amended theorem at a concrete state — the first
instantiate packet for id 7 is dispatched in place of the destroy. -/
theorem c5_amended_undo_destroy_witness :
    applyReplaceHandler
        (sampleState sampleStoreBoth [instPacket7, instPacket7B, destPacket7] [])
        destPacket7 =
      (sampleState sampleStoreBoth [instPacket7, instPacket7B, destPacket7] [],
        some instPacket7) :=
  (c5_amended_undo_destroy
      (sampleState sampleStoreBoth [instPacket7, instPacket7B, destPacket7] [])
      destPacket7 rfl rfl).1 [] instPacket7 [instPacket7B, destPacket7] rfl
    (by decide) (by simp)

/-- C7 counterexample: speed index 0 of `REPLAY_SPEEDS` is `-8`, not `0` —
it is the fastest reverse speed, not pause.  A tick of 100 ms at index 0
moves the virtual clock from 500 backwards to -300. -/
theorem c7_counterexample_index_zero :
    computedReplaySpeed 0 = -8 ∧ (-8 : ℚ) ≠ 0 ∧
    ({ sampleState (fun _ => []) [] [] with
        replaySpeed := 0 } : AppState).replayCurrentTime = 500 ∧
    (runReplayTick { sampleState (fun _ => []) [] [] with replaySpeed := 0 }
        0 100).1.replayCurrentTime = -300 ∧
    (-300 : ℚ) ≠ 500 := by
  refine ⟨by norm_num [computedReplaySpeed, REPLAY_SPEEDS], by norm_num,
    rfl, ?_, by norm_num⟩
  simp only [runReplayTick, tickCandidates, bucketLookup, sampleState,
    List.foldl_nil]
  norm_num [newReplayTime, clampDt, computedReplaySpeed, REPLAY_SPEEDS]

/-- C7 amended: pause lives at speed index 5 of the table (not index 0):
selecting index 5 yields multiplier 0, the virtual clock does not advance
on a tick, and no packet is dispatched. -/
theorem c7_amended_pause_is_index_five (a : AppState) (now dt : ℚ)
    (h : a.replaySpeed = 5) :
    computedReplaySpeed a.replaySpeed = 0 ∧
    (runReplayTick a now dt).1.replayCurrentTime = a.replayCurrentTime ∧
    (runReplayTick a now dt).2 = [] := by
  have hs : computedReplaySpeed a.replaySpeed = 0 := by
    rw [h]; norm_num [computedReplaySpeed, REPLAY_SPEEDS]
  have hnew : newReplayTime a dt = a.replayCurrentTime := by
    rw [newReplayTime, hs, mul_zero, add_zero]
  have hzero : computedReplaySpeed
      ({ a with replayCurrentTime := newReplayTime a dt } : AppState).replaySpeed = 0 := hs
  have hfold := foldl_tickStep_of_zero now _ hzero (tickCandidates a dt) []
  refine ⟨hs, ?_, ?_⟩
  · simp only [runReplayTick, hfold, List.foldl_nil]
    exact hnew
  · simp only [runReplayTick, hfold, List.foldl_nil]

/-- C7 witness: the amended theorem at a concrete paused state. -/
theorem c7_amended_pause_is_index_five_witness :
    computedReplaySpeed ({ sampleState (fun _ => []) [] [] with
        replaySpeed := 5 } : AppState).replaySpeed = 0 ∧
    (runReplayTick { sampleState (fun _ => []) [] [] with replaySpeed := 5 }
        0 100).1.replayCurrentTime =
      ({ sampleState (fun _ => []) [] [] with
          replaySpeed := 5 } : AppState).replayCurrentTime ∧
    (runReplayTick { sampleState (fun _ => []) [] [] with replaySpeed := 5 }
        0 100).2 = [] :=
  c7_amended_pause_is_index_five _ 0 100 rfl

/-- C3: when the first packet of a decoded replay chunk lacks a timestamp,
packet `i` of the batch (0-based) is assigned the synthetic timestamp
`chunkIndex * 30000 + i * (30000 / batchSize)`, where `chunkIndex` is the
0-based count of chunks received before this one. -/
theorem c3_synthetic_timestamps (chunkIndex : Nat) (rpcs : List RPCPacket)
    (p0 : RPCPacket) (rest : List RPCPacket) (hne : rpcs = p0 :: rest)
    (h0 : p0.timestamp = none) (i : Nat) (hi : i < rpcs.length) :
    ((assignChunkTimestamps chunkIndex rpcs)[i]?).map RPCPacket.timestamp =
      some (some ((chunkIndex : ℚ) * 30000 +
        (i : ℚ) * (30000 / (rpcs.length : ℚ)))) := by
  subst hne
  simp only [assignChunkTimestamps, List.head?_cons, h0, if_pos]
  rw [stampFrom_getElem?, List.getElem?_eq_getElem hi]
  simp only [Option.map_some']
  congr 2
  push_cast
  ring_nf

/-- C3 witness: a missing-timestamp batch of 3 packets at chunk index 2;
its middle packet receives timestamp 70000. -/
theorem c3_synthetic_timestamps_witness :
    ((assignChunkTimestamps 2
        [untimedPacket, untimedPacket, untimedPacket])[1]?).map
      RPCPacket.timestamp = some (some 70000) := by
  rw [c3_synthetic_timestamps 2 [untimedPacket, untimedPacket, untimedPacket]
    untimedPacket [untimedPacket, untimedPacket] rfl rfl 1 (by decide)]
  norm_num

/-- C4: a packet ingested with resolved timestamp `t` is found by a bucket
lookup at any `virtualTime` in the same second; the bucket is exactly the
ingestion-ordered sublist of packets of that second (never reordered); a
second containing no packet timestamp yields the empty sequence. -/
theorem c4_bucket_lookup_contains (now : ℚ) (rpcs : List RPCPacket)
    (p : RPCPacket) (t vt : ℚ) (hp : p ∈ rpcs) (ht : p.timestamp = some t) :
    (⌊vt / 1000⌋ = ⌊t / 1000⌋ →
      p ∈ bucketLookup (groupPackets now (fun _ => []) rpcs) vt) ∧
    bucketLookup (groupPackets now (fun _ => []) rpcs) vt =
      rpcs.filter
        (fun q => decide (⌊(q.timestamp.getD now) / 1000⌋ = ⌊vt / 1000⌋)) ∧
    ((∀ q ∈ rpcs, ⌊(q.timestamp.getD now) / 1000⌋ ≠ ⌊vt / 1000⌋) →
      bucketLookup (groupPackets now (fun _ => []) rpcs) vt = []) := by
  have hkey : bucketLookup (groupPackets now (fun _ => []) rpcs) vt =
      rpcs.filter
        (fun q => decide (⌊(q.timestamp.getD now) / 1000⌋ = ⌊vt / 1000⌋)) := by
    rw [bucketLookup, groupPackets_apply]
    simp
  refine ⟨?_, hkey, ?_⟩
  · intro hfloor
    rw [hkey]
    exact List.mem_filter.mpr ⟨hp, by simp [ht, hfloor]⟩
  · intro hnone
    rw [hkey, List.filter_eq_nil_iff]
    intro q hq
    simp [hnone q hq]

/-- C4 witness: a lookup at virtual time 1100 finds the packet with
timestamp 1500 (same second). -/
theorem c4_bucket_lookup_contains_witness :
    destPacket7 ∈
      bucketLookup (groupPackets 0 (fun _ => []) [instPacket7, destPacket7])
        1100 :=
  (c4_bucket_lookup_contains 0 [instPacket7, destPacket7] destPacket7 1500
      1100 (by simp) rfl).1 (by norm_num)

/-- C1: on a replay tick, a candidate packet is selected for dispatch
(directly in forward motion, through the undo registry in reverse motion)
exactly when its timestamp relative to the recording start lies strictly
within the traversed interval: for `speed > 0` when
`prevReplayTime < ts ≤ replayCurrentTime`, for `speed < 0` when
`replayCurrentTime ≤ ts < prevReplayTime`; in forward motion the
dispatched packets are exactly the selected ones, and at `speed == 0`
nothing is selected or dispatched. -/
theorem c1_timeframe_filter (a : AppState) (now dt : ℚ) (p : RPCPacket)
    (t : ℚ) (ht : p.timestamp = some t) :
    (computedReplaySpeed a.replaySpeed > 0 →
      (runReplayTick a now dt).2 = selectedPackets a now dt ∧
      (p ∈ selectedPackets a now dt ↔
        p ∈ tickCandidates a dt ∧
        a.prevReplayTime < t - a.replayStartTime ∧
        t - a.replayStartTime ≤ newReplayTime a dt)) ∧
    (computedReplaySpeed a.replaySpeed < 0 →
      (p ∈ selectedPackets a now dt ↔
        p ∈ tickCandidates a dt ∧
        newReplayTime a dt ≤ t - a.replayStartTime ∧
        t - a.replayStartTime < a.prevReplayTime)) ∧
    (computedReplaySpeed a.replaySpeed = 0 →
      (runReplayTick a now dt).2 = [] ∧ selectedPackets a now dt = []) := by
  refine ⟨?_, ?_, ?_⟩
  · intro hpos
    have hfold := foldl_tickStep_of_pos now
      { a with replayCurrentTime := newReplayTime a dt } hpos
      (tickCandidates a dt) []
    constructor
    · simp only [runReplayTick, hfold, List.nil_append]
      rfl
    · rw [selectedPackets, List.mem_filter]
      exact and_congr Iff.rfl
        (packetIsInTimeframe_pos_iff
          { a with replayCurrentTime := newReplayTime a dt } now p t ht hpos)
  · intro hneg
    rw [selectedPackets, List.mem_filter]
    exact and_congr Iff.rfl
      (packetIsInTimeframe_neg_iff
        { a with replayCurrentTime := newReplayTime a dt } now p t ht hneg)
  · intro hzero
    have hfold := foldl_tickStep_of_zero now
      { a with replayCurrentTime := newReplayTime a dt } hzero
      (tickCandidates a dt) []
    constructor
    · simp only [runReplayTick, hfold]
    · rw [selectedPackets, List.filter_eq_nil_iff]
      intro q hq
      simp [packetIsInTimeframe_of_zero now
        { a with replayCurrentTime := newReplayTime a dt } hzero q]

/-- C1 witness: a forward tick at 2x speed over the sample store; the
instantiate packet (relative timestamp 1000) falls inside the traversed
interval (500, 1600]. -/
theorem c1_timeframe_filter_witness :
    (runReplayTick (sampleState sampleStoreBoth [instPacket7, destPacket7] [])
        0 550).2 =
      selectedPackets (sampleState sampleStoreBoth [instPacket7, destPacket7] [])
        0 550 ∧
    (instPacket7 ∈
        selectedPackets (sampleState sampleStoreBoth [instPacket7, destPacket7] [])
          0 550 ↔
      instPacket7 ∈
        tickCandidates (sampleState sampleStoreBoth [instPacket7, destPacket7] [])
          550 ∧
      (sampleState sampleStoreBoth [instPacket7, destPacket7] []).prevReplayTime <
        (1000 : ℚ) -
          (sampleState sampleStoreBoth [instPacket7, destPacket7] []).replayStartTime ∧
      (1000 : ℚ) -
          (sampleState sampleStoreBoth [instPacket7, destPacket7] []).replayStartTime ≤
        newReplayTime (sampleState sampleStoreBoth [instPacket7, destPacket7] [])
          550) :=
  (c1_timeframe_filter (sampleState sampleStoreBoth [instPacket7, destPacket7] [])
      0 550 instPacket7 1000 rfl).1
    (by norm_num [computedReplaySpeed, REPLAY_SPEEDS, sampleState])

/-! ### Evaluation lemmas for concrete replay ticks (used by C2) -/

theorem resolve_e4 :
    resolveSpawnClass [aiAirVehicleRule] "Units/Allied/E-4" =
      some aiAirVehicleRule := rfl

theorem dispatchPacket_inst7 (a : AppState)
    (hsp : a.spawnables = [aiAirVehicleRule]) :
    dispatchPacket a instPacket7 =
      { a with entities := a.entities ++ [entity7] } := by
  simp only [dispatchPacket, instPacket7, hsp, handleEntitySpawn, resolve_e4]
  rfl

theorem dispatchPacket_dest7 (a : AppState) :
    dispatchPacket a destPacket7 =
      { a with entities := netDestroy 7 a.entities } := by
  simp only [dispatchPacket, destPacket7]
  rfl

theorem applyReplaceHandler_inst7 (a : AppState) :
    applyReplaceHandler a instPacket7 =
      ({ a with entities := netDestroy 7 a.entities }, none) := by
  simp only [applyReplaceHandler, instPacket7]
  rfl

theorem applyReplaceHandler_dest7 (a : AppState)
    (hrp : a.replayPackets = [instPacket7, destPacket7]) :
    applyReplaceHandler a destPacket7 = (a, some instPacket7) := by
  simp only [applyReplaceHandler, destPacket7, hrp]
  rfl

theorem forward_tick_inst (es : List Entity) :
    runReplayTick (sampleState sampleStoreInst [instPacket7] es) 0 550 =
      ({ sampleState sampleStoreInst [instPacket7] (es ++ [entity7]) with
          replayCurrentTime := 1600, prevReplayTime := 1600 },
        [instPacket7]) := by
  have hnew : newReplayTime (sampleState sampleStoreInst [instPacket7] es)
      550 = 1600 := by
    norm_num [newReplayTime, clampDt, computedReplaySpeed, REPLAY_SPEEDS,
      sampleState]
  have hcand : tickCandidates (sampleState sampleStoreInst [instPacket7] es)
      550 = [instPacket7] := by
    rw [tickCandidates, hnew]
    have hf1 : ⌊(1600 : ℚ) / 1000⌋ = 1 := by norm_num
    have hf0 : ⌊(500 : ℚ) / 1000⌋ = 0 := by norm_num
    simp [bucketLookup, sampleState, sampleStoreInst, hf1, hf0]
  have hpos1 : computedReplaySpeed
      ({ sampleState sampleStoreInst [instPacket7] es with
          replayCurrentTime := 1600 } : AppState).replaySpeed > 0 := by
    norm_num [sampleState, computedReplaySpeed, REPLAY_SPEEDS]
  have hin : packetIsInTimeframe
      { sampleState sampleStoreInst [instPacket7] es with
          replayCurrentTime := 1600 } 0 instPacket7 = true :=
    (packetIsInTimeframe_pos_iff _ 0 instPacket7 1000 rfl hpos1).mpr
      (by norm_num [sampleState])
  have hfold := foldl_tickStep_of_pos 0
    { sampleState sampleStoreInst [instPacket7] es with
        replayCurrentTime := 1600 } hpos1 [instPacket7] []
  have hdisp := dispatchPacket_inst7
    { sampleState sampleStoreInst [instPacket7] es with
        replayCurrentTime := 1600 } rfl
  simp only [runReplayTick, hnew, hcand, hfold, List.nil_append,
    List.filter_cons, hin, List.filter_nil, if_true, List.foldl_cons,
    List.foldl_nil, hdisp]
  simp [sampleState]

theorem reverse_tick_inst (es2 : List Entity) :
    runReplayTick
      { sampleState sampleStoreInst [instPacket7] es2 with
          replayCurrentTime := 1600, prevReplayTime := 1600,
          replaySpeed := 2 } 0 550 =
      ({ sampleState sampleStoreInst [instPacket7] (netDestroy 7 es2) with
          replayCurrentTime := 500, prevReplayTime := 500,
          replaySpeed := 2 }, []) := by
  have hnewR : newReplayTime
      { sampleState sampleStoreInst [instPacket7] es2 with
          replayCurrentTime := 1600, prevReplayTime := 1600,
          replaySpeed := 2 } 550 = 500 := by
    norm_num [newReplayTime, clampDt, computedReplaySpeed, REPLAY_SPEEDS,
      sampleState]
  have hcandR : tickCandidates
      { sampleState sampleStoreInst [instPacket7] es2 with
          replayCurrentTime := 1600, prevReplayTime := 1600,
          replaySpeed := 2 } 550 = [instPacket7] := by
    rw [tickCandidates, hnewR]
    have hf1 : ⌊(1600 : ℚ) / 1000⌋ = 1 := by norm_num
    have hf0 : ⌊(500 : ℚ) / 1000⌋ = 0 := by norm_num
    simp [bucketLookup, sampleState, sampleStoreInst, hf1, hf0]
  have hneg : computedReplaySpeed
      ({ sampleState sampleStoreInst [instPacket7] es2 with
          replayCurrentTime := 500, prevReplayTime := 1600,
          replaySpeed := 2 } : AppState).replaySpeed < 0 := by
    norm_num [sampleState, computedReplaySpeed, REPLAY_SPEEDS]
  have hinR : packetIsInTimeframe
      { sampleState sampleStoreInst [instPacket7] es2 with
          replayCurrentTime := 500, prevReplayTime := 1600,
          replaySpeed := 2 } 0 instPacket7 = true :=
    (packetIsInTimeframe_neg_iff _ 0 instPacket7 1000 rfl hneg).mpr
      (by norm_num [sampleState])
  have hrepl := applyReplaceHandler_inst7
    { sampleState sampleStoreInst [instPacket7] es2 with
        replayCurrentTime := 500, prevReplayTime := 1600, replaySpeed := 2 }
  simp only [runReplayTick, hnewR, hcandR, List.foldl_cons, List.foldl_nil,
    tickStep, hinR, Bool.not_true, hrepl]
  simp [hneg, sampleState]

theorem cex_forward_tick :
    runReplayTick cexStart 0 550 =
      ({ cexStart with replayCurrentTime := 1600, prevReplayTime := 1600 },
        [instPacket7, destPacket7]) := by
  have hnew : newReplayTime cexStart 550 = 1600 := by
    norm_num [newReplayTime, clampDt, computedReplaySpeed, REPLAY_SPEEDS,
      cexStart, sampleState]
  have hcand : tickCandidates cexStart 550 = [instPacket7, destPacket7] := by
    rw [tickCandidates, hnew]
    have hf1 : ⌊(1600 : ℚ) / 1000⌋ = 1 := by norm_num
    have hf0 : ⌊(500 : ℚ) / 1000⌋ = 0 := by norm_num
    simp [bucketLookup, cexStart, sampleState, sampleStoreBoth, hf1, hf0]
  have hpos1 : computedReplaySpeed
      ({ cexStart with replayCurrentTime := 1600 } : AppState).replaySpeed
        > 0 := by
    norm_num [cexStart, sampleState, computedReplaySpeed, REPLAY_SPEEDS]
  have hin1 : packetIsInTimeframe { cexStart with replayCurrentTime := 1600 }
      0 instPacket7 = true :=
    (packetIsInTimeframe_pos_iff _ 0 instPacket7 1000 rfl hpos1).mpr
      (by norm_num [cexStart, sampleState])
  have hin2 : packetIsInTimeframe { cexStart with replayCurrentTime := 1600 }
      0 destPacket7 = true :=
    (packetIsInTimeframe_pos_iff _ 0 destPacket7 1500 rfl hpos1).mpr
      (by norm_num [cexStart, sampleState])
  have hfold := foldl_tickStep_of_pos 0
    { cexStart with replayCurrentTime := 1600 } hpos1
    [instPacket7, destPacket7] []
  have hd1 : dispatchPacket { cexStart with replayCurrentTime := 1600 }
      instPacket7 =
      { cexStart with replayCurrentTime := 1600, entities := [entity7] } := by
    rw [dispatchPacket_inst7 _ rfl]
    simp [cexStart, sampleState]
  have hd2 : dispatchPacket
      { cexStart with replayCurrentTime := 1600, entities := [entity7] }
      destPacket7 = { cexStart with replayCurrentTime := 1600 } := by
    rw [dispatchPacket_dest7]
    simp [cexStart, sampleState, netDestroy, entity7]
  simp only [runReplayTick, hnew, hcand, hfold, List.nil_append,
    List.filter_cons, hin1, hin2, if_true, List.filter_nil, List.foldl_cons,
    List.foldl_nil, hd1, hd2]

theorem cex_reverse_tick :
    runReplayTick
      { cexStart with
          replayCurrentTime := 1600
          prevReplayTime := 1600
          replaySpeed := 2 } 0 550 =
      ({ cexStart with
          entities := [entity7]
          replayCurrentTime := 500
          prevReplayTime := 500
          replaySpeed := 2 }, [instPacket7]) := by
  have hnew : newReplayTime
      { cexStart with
          replayCurrentTime := 1600
          prevReplayTime := 1600
          replaySpeed := 2 } 550 = 500 := by
    norm_num [newReplayTime, clampDt, computedReplaySpeed, REPLAY_SPEEDS,
      cexStart, sampleState]
  have hcand : tickCandidates
      { cexStart with
          replayCurrentTime := 1600
          prevReplayTime := 1600
          replaySpeed := 2 } 550 = [instPacket7, destPacket7] := by
    rw [tickCandidates, hnew]
    have hf1 : ⌊(1600 : ℚ) / 1000⌋ = 1 := by norm_num
    have hf0 : ⌊(500 : ℚ) / 1000⌋ = 0 := by norm_num
    simp [bucketLookup, cexStart, sampleState, sampleStoreBoth, hf1, hf0]
  have hneg : computedReplaySpeed
      ({ cexStart with
          replayCurrentTime := 500
          prevReplayTime := 1600
          replaySpeed := 2 } : AppState).replaySpeed < 0 := by
    norm_num [cexStart, sampleState, computedReplaySpeed, REPLAY_SPEEDS]
  have hin1 : packetIsInTimeframe
      { cexStart with
          replayCurrentTime := 500
          prevReplayTime := 1600
          replaySpeed := 2 } 0 instPacket7 = true :=
    (packetIsInTimeframe_neg_iff _ 0 instPacket7 1000 rfl hneg).mpr
      (by norm_num [cexStart, sampleState])
  have hin2 : packetIsInTimeframe
      { cexStart with
          replayCurrentTime := 500
          prevReplayTime := 1600
          replaySpeed := 2 } 0 destPacket7 = true :=
    (packetIsInTimeframe_neg_iff _ 0 destPacket7 1500 rfl hneg).mpr
      (by norm_num [cexStart, sampleState])
  have hstep1 : tickStep 0
      ({ cexStart with
          replayCurrentTime := 500
          prevReplayTime := 1600
          replaySpeed := 2 }, ([] : List RPCPacket)) instPacket7 =
      ({ cexStart with
          replayCurrentTime := 500
          prevReplayTime := 1600
          replaySpeed := 2 }, []) := by
    have hrepl := applyReplaceHandler_inst7
      { cexStart with
          replayCurrentTime := 500
          prevReplayTime := 1600
          replaySpeed := 2 }
    simp only [tickStep, hin1, Bool.not_true, hrepl]
    simp [hneg, cexStart, sampleState, netDestroy]
  have hstep2 : tickStep 0
      ({ cexStart with
          replayCurrentTime := 500
          prevReplayTime := 1600
          replaySpeed := 2 }, ([] : List RPCPacket)) destPacket7 =
      ({ cexStart with
          replayCurrentTime := 500
          prevReplayTime := 1600
          replaySpeed := 2 }, [instPacket7]) := by
    have hrepl := applyReplaceHandler_dest7
      { cexStart with
          replayCurrentTime := 500
          prevReplayTime := 1600
          replaySpeed := 2 } rfl
    simp only [tickStep, hin2, Bool.not_true, hrepl]
    simp [hneg]
  have hd1 : dispatchPacket
      { cexStart with
          replayCurrentTime := 500
          prevReplayTime := 1600
          replaySpeed := 2 } instPacket7 =
      { cexStart with
          entities := [entity7]
          replayCurrentTime := 500
          prevReplayTime := 1600
          replaySpeed := 2 } := by
    rw [dispatchPacket_inst7 _ rfl]
    simp [cexStart, sampleState]
  simp only [runReplayTick, hnew, hcand, List.foldl_cons, List.foldl_nil,
    hstep1, hstep2, hd1]

/-- C2 counterexample: with instantiate(7)@1000 and destroy(7)@1500 in the
store, starting from an empty live set at virtual time 500, one forward
tick at 2x crosses both packets (spawn then destroy, live set back to
empty at time 1600); one reverse tick at -2x back across the very same
interval ends at time 500 with entity 7 ALIVE — the undo of the destroy
re-dispatches the instantiate after the undo of the instantiate already
ran, because candidates are processed in store order even in reverse.
The live set is not restored to its pre-forward composition. -/
theorem c2_counterexample_reverse_not_inverse :
    cexStart.entities = [] ∧
    cexStart.replayCurrentTime = 500 ∧
    (runReplayTick cexStart 0 550).1.entities = [] ∧
    (runReplayTick cexStart 0 550).1.replayCurrentTime = 1600 ∧
    (runReplayTick { (runReplayTick cexStart 0 550).1 with
        replaySpeed := 2 } 0 550).1.replayCurrentTime = 500 ∧
    (runReplayTick { (runReplayTick cexStart 0 550).1 with
        replaySpeed := 2 } 0 550).1.entities = [entity7] ∧
    ([entity7] : List Entity) ≠ [] := by
  refine ⟨rfl, rfl, ?_, ?_, ?_, ?_, by simp⟩
  · rw [cex_forward_tick]
    rfl
  · rw [cex_forward_tick]
  · rw [cex_forward_tick]
    show (runReplayTick
      { cexStart with
          replayCurrentTime := 1600
          prevReplayTime := 1600
          replaySpeed := 2 } 0 550).1.replayCurrentTime = 500
    rw [cex_reverse_tick]
  · rw [cex_forward_tick]
    show (runReplayTick
      { cexStart with
          replayCurrentTime := 1600
          prevReplayTime := 1600
          replaySpeed := 2 } 0 550).1.entities = [entity7]
    rw [cex_reverse_tick]

/-- C2 amended: spawn/despawn symmetry holds when the instantiate packet
is the only lifecycle packet of its entity in the traversed interval: for
any initial live set without id 7, one forward tick across the
instantiate packet of entity 7 leaves the set with entity 7 appended, and
one reverse tick back across the same interval removes it again, restoring
the original set.  (It fails in general — see the counterexample — when a
single reverse tick crosses both the instantiate and the destroy packet
of the same entity, since candidates are processed in store order even in
reverse motion.) -/
theorem c2_amended_spawn_symmetry (es : List Entity)
    (h : ∀ x ∈ es, x.id ≠ 7) :
    (runReplayTick (sampleState sampleStoreInst [instPacket7] es)
        0 550).1.entities = es ++ [entity7] ∧
    (runReplayTick
        { (runReplayTick (sampleState sampleStoreInst [instPacket7] es)
            0 550).1 with replaySpeed := 2 } 0 550).1.entities = es := by
  constructor
  · rw [forward_tick_inst]
    rfl
  · rw [forward_tick_inst]
    show (runReplayTick
      { sampleState sampleStoreInst [instPacket7] (es ++ [entity7]) with
          replayCurrentTime := 1600
          prevReplayTime := 1600
          replaySpeed := 2 } 0 550).1.entities = es
    rw [reverse_tick_inst]
    show netDestroy 7 (es ++ [entity7]) = es
    simpa using netDestroy_append_split 7 entity7 [] es h rfl

/-- C2 witness: the amended theorem at the empty initial live set. -/
theorem c2_amended_spawn_symmetry_witness :
    (runReplayTick (sampleState sampleStoreInst [instPacket7] [])
        0 550).1.entities = [] ++ [entity7] ∧
    (runReplayTick
        { (runReplayTick (sampleState sampleStoreInst [instPacket7] [])
            0 550).1 with replaySpeed := 2 } 0 550).1.entities = [] :=
  c2_amended_spawn_symmetry [] (by simp)

end VTOLReplay
